import Mathlib

/-!
Verification of the Observability-System request telemetry core

Shallow embedding of `src/app/server.js` (the only executable source file of
the repository): the metrics/log middleware, the route label resolution, the
duration computation, the log-sink line format, and the three demonstration
route handlers with their manual span management.

The JavaScript runtime's single-threaded event loop delivers exactly one
`finish` event per completed response; the middleware's finish callback is
embedded as a pure function from its inputs (request data, response status,
the two monotonic clock readings, the wall-clock timestamp) to the ordered
list of side effects it performs.
-/

namespace ObsSys

/-- Label tuple `{ method, route, status_code }` used by `httpRequests` and
`httpDuration` in `server.js` (`labels` in the finish callback). -/
structure Labels where
  method : String
  route : String
  status_code : String
deriving DecidableEq, Repr

/-- JavaScript truthiness of an optional string: `undefined` and the empty
string are falsy, any other string is truthy.  This is the semantics of the
`||` chains in `server.js` (`req.route?.path || req.path || 'unknown'` and
`process.env.LOGS_DIR || '/app/logs'`). -/
def truthy : Option String → Bool
  | none => false
  | some s => s ≠ ""

/-- Route label resolution from the finish callback:
`const route = req.route?.path || req.path || 'unknown';`.
`rp` embeds `req.route?.path` (the matched route pattern, `undefined` when no
handler matched) and `p` embeds `req.path` (the raw request path). -/
def resolveRoute (rp p : Option String) : String :=
  if truthy rp then rp.getD "" else if truthy p then p.getD "" else "unknown"

/-- Status classification from the finish callback:
`if (res.statusCode >= 200 && res.statusCode < 400)`. -/
def isSuccessStatus (status : Nat) : Bool :=
  decide (200 ≤ status) && decide (status < 400)

/-- Duration computation `const delta = Number(process.hrtime.bigint() - start) / 1e9;`:
`t0` and `t1` are the two readings (nanoseconds) of the monotonic clock
`process.hrtime.bigint()`; the subtraction is exact BigInt subtraction and the
division by `1e9` converts nanoseconds to fractional seconds.  (The `Number`
conversion is exact for every difference below `2^53` ns, i.e. for any
request shorter than about 104 days.) -/
def deltaSeconds (t0 t1 : Nat) : ℚ :=
  ((t1 : ℤ) - (t0 : ℤ) : ℚ) / 1000000000

/-- The log record built in the finish callback:
`const logEntry = { method: req.method, route, status: res.statusCode, duration_s: delta };`. -/
structure LogEntry where
  method : String
  route : String
  status : Nat
  duration_s : ℚ
deriving DecidableEq, Repr

/-- One side effect performed by the middleware finish callback, in the order
the callback performs them. -/
inductive Event where
  /-- Call `httpRequests.inc(labels)`. -/
  | counterInc (labels : Labels)
  /-- Call `httpDuration.observe(labels, delta)`. -/
  | histObserve (labels : Labels) (value : ℚ)
  /-- Call `successRequests.inc(\x7b route \x7d)`. -/
  | successInc (route : String)
  /-- Call `errorRequests.inc(\x7b route \x7d)`. -/
  | errorInc (route : String)
  /-- Call `logger.info(logEntry, ...)` on the console structured logger. -/
  | consoleLog (entry : LogEntry)
  /-- Call `logToFile(logEntry)`: one line appended to the log file. -/
  | fileAppend (line : String)
deriving DecidableEq, Repr

/-- The inputs available to one finish-callback invocation: the request data,
the response status, the clock reading captured at middleware entry (`start`),
the clock reading taken inside the callback, and the wall-clock ISO-8601
timestamp produced by `new Date().toISOString()` inside `logToFile`. -/
structure FinishInput where
  method : String
  routePath : Option String
  path : Option String
  status : Nat
  t0 : Nat
  t1 : Nat
  ts : String
deriving Repr

/-! Section: structured log sink (`logsDir` / `logFile` / `logToFile`) -/

/-- Hexadecimal digit character for `n < 16` (used by the `\u00XX` escapes
of the JSON serializer). -/
def hexDigit (n : Nat) : Char :=
  if n < 10 then Char.ofNat (48 + n) else Char.ofNat (87 + n)

/-- Escaping of one character as performed by `JSON.stringify` on string
values: quote, backslash, the named control escapes, and `\u00XX` for the
remaining control characters. -/
def jsonEscapeChar (c : Char) : String :=
  if c = Char.ofNat 34 then "\\\""
  else if c = Char.ofNat 92 then "\\\\"
  else if c = Char.ofNat 10 then "\\n"
  else if c = Char.ofNat 13 then "\\r"
  else if c = Char.ofNat 9 then "\\t"
  else if c = Char.ofNat 8 then "\\b"
  else if c = Char.ofNat 12 then "\\f"
  else if c.toNat < 32 then
    "\\u00" ++ String.mk [hexDigit (c.toNat / 16), hexDigit (c.toNat % 16)]
  else String.singleton c

/-- Rendering of a string value by `JSON.stringify`, quotes included. -/
def jsonStr (s : String) : String :=
  "\"" ++ String.join (s.toList.map jsonEscapeChar) ++ "\""

/-- Drop the trailing zero digits of a fractional-part digit string. -/
def stripTrailingZeros (l : List Char) : List Char :=
  (l.reverse.dropWhile (fun c => c = Char.ofNat 48)).reverse

/-- Decimal rendering of the `duration_s` number as `JSON.stringify` emits
it.  Every duration produced by the middleware is an integer multiple of
`10⁻⁹` seconds (nanosecond clock), so nine fractional digits with trailing
zeros stripped render it exactly. -/
def renderNum (q : ℚ) : String :=
  let sign := if q < 0 then "-" else ""
  let a := if q < 0 then -q else q
  let ip := (⌊a⌋).toNat
  let frac := (⌊(a - (ip : ℚ)) * 1000000000⌋).toNat
  if frac = 0 then sign ++ toString ip
  else
    let ds := toString frac
    let padded := String.mk (List.replicate (9 - ds.length) (Char.ofNat 48)) ++ ds
    sign ++ toString ip ++ "." ++ String.mk (stripTrailingZeros padded.toList)

/-- Rendering of an object literal by `JSON.stringify`: the fields in insertion order,
each rendered as `"name":value`, wrapped in braces.  The second component of
each pair is the already-rendered value. -/
def renderObj (fields : List (String × String)) : String :=
  "\x7b" ++ String.intercalate "," (fields.map fun f => jsonStr f.1 ++ ":" ++ f.2) ++ "\x7d"

/-- The fields of the middleware's `logEntry` object, in the insertion order
of the object literal in `server.js`. -/
def logEntryFields (e : LogEntry) : List (String × String) :=
  [ ("method", jsonStr e.method),
    ("route", jsonStr e.route),
    ("status", toString e.status),
    ("duration_s", renderNum e.duration_s) ]

/-- Serialization `JSON.stringify(message)` of the middleware log record. -/
def jsonOfLogEntry (e : LogEntry) : String :=
  renderObj (logEntryFields e)

/-- The single line appended by
`logStream.write(`...`${new Date().toISOString()} ${JSON.stringify(message)}\n`...`)`:
ISO-8601 timestamp, a space, the JSON record, a trailing newline. -/
def fileLine (ts : String) (e : LogEntry) : String :=
  ts ++ " " ++ jsonOfLogEntry e ++ "\n"

/-- Directory resolution `const logsDir = path.resolve(process.env.LOGS_DIR || '/app/logs');`.
For absolute paths (the default and any container-style override)
`path.resolve` is the identity, so the embedding is the `||` chain itself. -/
def resolveLogsDir (env : Option String) : String :=
  if truthy env then env.getD "" else "/app/logs"

/-- File path `const logFile = path.join(logsDir, 'app.log');`. -/
def logFilePath (env : Option String) : String :=
  resolveLogsDir env ++ "/app.log"

/-- Startup check `if (!fs.existsSync(logsDir)) fs.mkdirSync(logsDir, ...);`:
maps the directory's existence before startup to its existence after. -/
def ensureLogsDir (dirExists : Bool) : Bool :=
  if !dirExists then true else dirExists

/-! Section: the middleware finish callback as an ordered effect list -/

/-- The `logEntry` object built by the finish callback. -/
def finishLogEntry (i : FinishInput) : LogEntry :=
  { method := i.method
    route := resolveRoute i.routePath i.path
    status := i.status
    duration_s := deltaSeconds i.t0 i.t1 }

/-- The ordered list of side effects performed by one invocation of the
`res.on('finish', ...)` callback, line by line from `server.js`:
counter increment, histogram observation, exactly one of the success/error
increments, console log, file append. -/
def onFinish (i : FinishInput) : List Event :=
  let delta := deltaSeconds i.t0 i.t1
  let route := resolveRoute i.routePath i.path
  let labels : Labels := { method := i.method, route := route, status_code := toString i.status }
  [Event.counterInc labels, Event.histObserve labels delta]
  ++ (if isSuccessStatus i.status then [Event.successInc route] else [Event.errorInc route])
  ++ [Event.consoleLog (finishLogEntry i),
      Event.fileAppend (fileLine i.ts (finishLogEntry i))]

/-- The process-wide observable state: the four metric instruments of the
registry (the histogram abstracted by its per-label observation count and
running sum), the console log, and the append-only log file contents. -/
structure SysState where
  httpRequests : Labels → Nat
  durationCount : Labels → Nat
  durationSum : Labels → ℚ
  successRequests : String → Nat
  errorRequests : String → Nat
  consoleLines : List LogEntry
  logFile : List String

/-- Counter increment at one label value (prom-client `inc` creates the
series on first use and adds one). -/
def bump {α : Type} [DecidableEq α] (f : α → Nat) (a : α) : α → Nat :=
  fun x => if x = a then f x + 1 else f x

/-- Effect of one middleware event on the process state. -/
def applyEvent (s : SysState) : Event → SysState
  | .counterInc l => { s with httpRequests := bump s.httpRequests l }
  | .histObserve l v =>
      { s with durationCount := bump s.durationCount l
               durationSum := fun x => if x = l then s.durationSum x + v else s.durationSum x }
  | .successInc r => { s with successRequests := bump s.successRequests r }
  | .errorInc r => { s with errorRequests := bump s.errorRequests r }
  | .consoleLog e => { s with consoleLines := s.consoleLines ++ [e] }
  | .fileAppend line => { s with logFile := s.logFile ++ [line] }

/-- Apply a list of events in order. -/
def applyEvents (s : SysState) (es : List Event) : SysState :=
  es.foldl applyEvent s

/-- State after one completed request's finish callback. -/
def applyFinish (s : SysState) (i : FinishInput) : SysState :=
  applyEvents s (onFinish i)

/-! Section: route handlers (`/`, `/work`, `/error`) with manual spans -/

/-- Final status of a span: `SpanStatusCode.OK` or `SpanStatusCode.ERROR`
with an optional message. -/
inductive SpanStatus where
  | ok
  | error (msg : String)
deriving DecidableEq, Repr

/-- A JSON response body as built by the route handlers; absent fields are
`none`. -/
structure JsonBody where
  ok : Bool
  message : Option String := none
  error : Option String := none
  simulated_ms : Option Nat := none
deriving DecidableEq, Repr

/-- One step performed by a route handler body, in program order. -/
inductive HEvent where
  /-- Call `tracer.startActiveSpan(name, ...)`. -/
  | startSpan (name : String)
  /-- Await of `new Promise(r => setTimeout(r, ms))`. -/
  | sleep (ms : Nat)
  /-- Call `logger.warn(...)`. -/
  | consoleWarn
  /-- Call `logger.error(...)`. -/
  | consoleError
  /-- Call `span.setStatus(...)`. -/
  | setStatus (s : SpanStatus)
  /-- Call `span.end()`. -/
  | endSpan
  /-- Call `res.json(...)` or `res.status(c).json(...)`. -/
  | respond (status : Nat) (body : JsonBody)
deriving DecidableEq, Repr

/-- Trace of the `GET /` handler body. -/
def rootHandler : List HEvent :=
  [ HEvent.startSpan "root_route",
    HEvent.respond 200 { ok := true, message := some "Hello from demo app" },
    HEvent.setStatus SpanStatus.ok,
    HEvent.endSpan ]

/-- Trace of the `GET /work` handler body for given outcomes of the two
`Math.random()` draws: `ms = Math.floor(r1 * 500)` milliseconds of sleep and
`fails = (r2 < 0.1)`.  Faithful to the `try`/`finally`: on the random-failure
branch the handler calls `span.end()` explicitly, the `return` expression
produces the 500 response, and then the `finally` block runs `span.end()`
again; on the success branch only the `finally` block ends the span. -/
def workHandler (ms : Nat) (fails : Bool) : List HEvent :=
  [HEvent.startSpan "work_route", HEvent.sleep ms]
  ++ (if fails then
        [ HEvent.consoleWarn,
          HEvent.setStatus (SpanStatus.error "Random failure"),
          HEvent.endSpan,
          HEvent.respond 500 { ok := false, error := some "Random failure occurred" },
          HEvent.endSpan ]
      else
        [ HEvent.respond 200 { ok := true, simulated_ms := some ms },
          HEvent.setStatus SpanStatus.ok,
          HEvent.endSpan ])

/-- Computation `const ms = Math.floor(Math.random() * 500);` for a draw `r1 ∈ [0, 1)`. -/
def workMs (r1 : ℚ) : Nat :=
  (⌊r1 * 500⌋).toNat

/-- Test `Math.random() < 0.1` for a draw `r2 ∈ [0, 1)`. -/
def workFails (r2 : ℚ) : Bool :=
  decide (r2 < 1 / 10)

/-- The `GET /work` handler trace as a function of the two uniform draws. -/
def workHandlerR (r1 r2 : ℚ) : List HEvent :=
  workHandler (workMs r1) (workFails r2)

/-- Trace of the `GET /error` handler body. -/
def errorHandler : List HEvent :=
  [ HEvent.startSpan "error_route",
    HEvent.consoleError,
    HEvent.respond 500 { ok := false, error := some "Simulated server error" },
    HEvent.setStatus (SpanStatus.error "Forced error"),
    HEvent.endSpan ]

/-- Responses sent by a handler trace, in order. -/
def responsesOf (tr : List HEvent) : List (Nat × JsonBody) :=
  tr.filterMap fun e =>
    match e with
    | HEvent.respond s b => some (s, b)
    | _ => none

/-- Number of `span.end()` calls in a handler trace. -/
def endCount (tr : List HEvent) : Nat :=
  tr.count HEvent.endSpan

/-- The span status in force when the handler finishes (the last
`setStatus` of the trace). -/
def finalSpanStatus (tr : List HEvent) : Option SpanStatus :=
  (tr.filterMap fun e =>
    match e with
    | HEvent.setStatus s => some s
    | _ => none).getLast?

/-- Sleep durations of a handler trace, in order. -/
def sleepsOf (tr : List HEvent) : List Nat :=
  tr.filterMap fun e =>
    match e with
    | HEvent.sleep ms => some ms
    | _ => none

/-! Section: log-stream failure handling -/

/-- The `(emitter, event)` listener registrations present in `server.js`:
a `finish` listener on each response inside the middleware and a `SIGTERM`
listener on the process.  No listener of any kind — in particular no
`error` listener — is registered on `logStream`, and no `uncaughtException`
handler is registered on the process. -/
def sourceListenerRegistrations : List (String × String) :=
  [("res", "finish"), ("process", "SIGTERM")]

/-- Whether the source registers an `error` listener on `logStream`. -/
def logStreamHasErrorListener : Bool :=
  decide (("logStream", "error") ∈ sourceListenerRegistrations)

/-- Fate of the process when the log-file write fails. -/
inductive FailureOutcome where
  | loggedAndSwallowed
  | processCrash
deriving DecidableEq, Repr

/-- Node.js EventEmitter semantics for a write-stream `error` event
(platform behaviour, not repository code): with at least one `error`
listener registered the failure is delivered to it and the process
continues; with none, the error is thrown as an uncaught exception and —
the source registering no `uncaughtException` handler — the process
crashes. -/
def writeFailureOutcome (hasErrorListener : Bool) : FailureOutcome :=
  if hasErrorListener then FailureOutcome.loggedAndSwallowed
  else FailureOutcome.processCrash

/-! Section: helper observers shared by the claim theorems -/

/-- The label tuple built by the finish callback. -/
def finishLabels (i : FinishInput) : Labels :=
  { method := i.method
    route := resolveRoute i.routePath i.path
    status_code := toString i.status }

/-- Test for a request-counter increment event. -/
def isCounterIncEv : Event → Bool
  | Event.counterInc _ => true
  | _ => false

/-- Test for a histogram observation event. -/
def isHistEv : Event → Bool
  | Event.histObserve _ _ => true
  | _ => false

/-- Test for a log-file append event. -/
def isFileAppendEv : Event → Bool
  | Event.fileAppend _ => true
  | _ => false

/-- Test for a success/error classification increment event. -/
def isClassifyEv : Event → Bool
  | Event.successInc _ => true
  | Event.errorInc _ => true
  | _ => false

/-- Test for any registry (metric) update event. -/
def isRegistryEvent : Event → Bool
  | Event.counterInc _ => true
  | Event.histObserve _ _ => true
  | Event.successInc _ => true
  | Event.errorInc _ => true
  | _ => false

/-- The registry and sink state at process start: all counters zero, empty
log file. -/
def initState : SysState :=
  { httpRequests := fun _ => 0
    durationCount := fun _ => 0
    durationSum := fun _ => 0
    successRequests := fun _ => 0
    errorRequests := fun _ => 0
    consoleLines := []
    logFile := [] }

/-- Finish-callback input produced by a completed `GET /error` request: the
matched route pattern is `/error` and the handler always responds 500. -/
def errorFinishInput (m p ts : String) (t0 t1 : Nat) : FinishInput :=
  { method := m, routePath := some "/error", path := some p, status := 500, t0 := t0, t1 := t1, ts := ts }

/-! Section: claim theorems -/

/-- C1: the specification requires exactly one `span.end()` per `startSpan`
on every exit path of each route handler, enforced by a guaranteed-cleanup
construct.  The code violates this: on the random-failure branch of
`GET /work` (second draw below 0.1) the handler calls `span.end()`
explicitly and the `finally` block then calls it a second time, so the span
is ended twice, while the success branch ends it exactly once. -/
theorem C1_work_random_failure_double_end :
    workFails (1/20 : ℚ) = true
    ∧ endCount (workHandlerR (3/10 : ℚ) (1/20 : ℚ)) = 2
    ∧ endCount (workHandlerR (3/10 : ℚ) (11/20 : ℚ)) = 1 := by
  refine ⟨by norm_num [workFails], ?_, ?_⟩ <;>
  · norm_num [workHandlerR, workMs, workFails]
    decide

/-- C2: every completed request's finish callback increments exactly one of
the two counters `successRequests` and `errorRequests`, keyed by the
resolved route: `successRequests` exactly when the response status satisfies
200 ≤ status < 400, `errorRequests` otherwise. -/
theorem C2_finish_classifies_exactly_one_counter (s : SysState) (i : FinishInput) :
    ((isSuccessStatus i.status = true) ↔ (200 ≤ i.status ∧ i.status < 400))
    ∧ (onFinish i).filter isClassifyEv
      = (if isSuccessStatus i.status then [Event.successInc (resolveRoute i.routePath i.path)]
         else [Event.errorInc (resolveRoute i.routePath i.path)])
    ∧ ((applyFinish s i).successRequests, (applyFinish s i).errorRequests)
      = (if isSuccessStatus i.status
         then (bump s.successRequests (resolveRoute i.routePath i.path), s.errorRequests)
         else (s.successRequests, bump s.errorRequests (resolveRoute i.routePath i.path))) := by
  refine ⟨by simp [isSuccessStatus], ?_, ?_⟩ <;>
  · cases h : isSuccessStatus i.status <;>
      simp [onFinish, applyFinish, applyEvents, applyEvent, h, isClassifyEv, finishLabels]

/-- C3: every completed request's finish callback produces exactly one
request-counter increment and exactly one histogram observation, both
labeled with the (method, route, status_code) tuple, and appends exactly
one line to the log file.  (The runtime fires `finish` once per completed
response, so per completed request each effect happens exactly once.) -/
theorem C3_finish_records_exactly_once (s : SysState) (i : FinishInput) :
    (onFinish i).filter isCounterIncEv = [Event.counterInc (finishLabels i)]
    ∧ (onFinish i).filter isHistEv
      = [Event.histObserve (finishLabels i) (deltaSeconds i.t0 i.t1)]
    ∧ (onFinish i).filter isFileAppendEv
      = [Event.fileAppend (fileLine i.ts (finishLogEntry i))]
    ∧ (applyFinish s i).httpRequests = bump s.httpRequests (finishLabels i)
    ∧ (applyFinish s i).logFile = s.logFile ++ [fileLine i.ts (finishLogEntry i)] := by
  refine ⟨?_, ?_, ?_, ?_, ?_⟩ <;>
  · cases h : isSuccessStatus i.status <;>
      simp [onFinish, applyFinish, applyEvents, applyEvent, h, finishLabels,
        isCounterIncEv, isHistEv, isFileAppendEv, finishLogEntry]

/-- C4: within one finish callback the registry updates (the counter
increment, the histogram observation and the classification increment —
three events) all happen before the log-sink write: the callback's effect
sequence is exactly its registry updates followed by the console log and,
last of all, the file append. -/
theorem C4_registry_updates_precede_log_write (i : FinishInput) :
    (onFinish i).filter isRegistryEvent
        ++ [Event.consoleLog (finishLogEntry i),
            Event.fileAppend (fileLine i.ts (finishLogEntry i))]
      = onFinish i
    ∧ ((onFinish i).filter isRegistryEvent).length = 3
    ∧ (onFinish i).countP isRegistryEvent = 3
    ∧ (onFinish i).getLast? = some (Event.fileAppend (fileLine i.ts (finishLogEntry i))) := by
  refine ⟨?_, ?_, ?_, ?_⟩ <;>
  · cases h : isSuccessStatus i.status <;>
      simp [onFinish, h, isRegistryEvent, finishLogEntry]

/-- C5: `GET /work` sleeps `⌊r1 · 500⌋` milliseconds — an integer in
[0, 500) that, as the floor characterization shows, is uniformly
distributed when the draw `r1` is uniform on [0, 1).  When the second draw
satisfies `r2 < 0.1` the handler responds 500 with body ok=false,
error="Random failure occurred" and final span status ERROR with message
"Random failure"; otherwise it responds 200 with body ok=true,
simulated_ms equal to the slept value, and final span status OK. -/
theorem C5_work_route_behavior (r1 r2 : ℚ) (h0 : 0 ≤ r1) (h1 : r1 < 1) :
    sleepsOf (workHandlerR r1 r2) = [workMs r1]
    ∧ workMs r1 < 500
    ∧ (∀ k : ℕ, workMs r1 = k ↔ ((k : ℚ) / 500 ≤ r1 ∧ r1 < ((k : ℚ) + 1) / 500))
    ∧ (workFails r2 = true ↔ r2 < 1 / 10)
    ∧ responsesOf (workHandlerR r1 r2)
        = (if workFails r2
           then [(500, { ok := false, error := some "Random failure occurred" })]
           else [(200, { ok := true, simulated_ms := some (workMs r1) })])
    ∧ finalSpanStatus (workHandlerR r1 r2)
        = (if workFails r2 then some (SpanStatus.error "Random failure") else some SpanStatus.ok) := by
  have h500 : (0 : ℚ) < 500 := by norm_num
  have hnn : (0 : ℤ) ≤ ⌊r1 * 500⌋ := Int.floor_nonneg.mpr (by positivity)
  have hlt : ⌊r1 * 500⌋ < 500 := Int.floor_lt.mpr (by push_cast; linarith)
  refine ⟨?_, ?_, ?_, ?_, ?_, ?_⟩
  · cases hf : workFails r2 <;> simp [workHandlerR, workHandler, hf, sleepsOf]
  · unfold workMs; omega
  · intro k
    unfold workMs
    constructor
    · intro hk
      have hfl : ⌊r1 * 500⌋ = (k : ℤ) := by omega
      rw [Int.floor_eq_iff] at hfl
      refine ⟨?_, ?_⟩
      · rw [div_le_iff₀ h500]
        exact_mod_cast hfl.1
      · rw [lt_div_iff₀ h500]
        push_cast at hfl
        linarith [hfl.2]
    · rintro ⟨ha, hb⟩
      rw [div_le_iff₀ h500] at ha
      rw [lt_div_iff₀ h500] at hb
      have hfl : ⌊r1 * 500⌋ = (k : ℤ) := by
        rw [Int.floor_eq_iff]
        constructor
        · exact_mod_cast ha
        · push_cast; linarith
      omega
  · simp [workFails]
  · cases hf : workFails r2 <;> simp [workHandlerR, workHandler, hf, responsesOf]
  · cases hf : workFails r2 <;> simp [workHandlerR, workHandler, hf, finalSpanStatus]

/-- C5 witness: at the concrete draws r1 = 1/4 and r2 = 1/20 the slept
value is below 500 and the failure branch is taken. -/
theorem C5_work_route_behavior_witness :
    workMs (1/4 : ℚ) < 500 ∧ workFails (1/20 : ℚ) = true :=
  ⟨(C5_work_route_behavior (1/4) (1/20) (by norm_num) (by norm_num)).2.1,
   ((C5_work_route_behavior (1/4) (1/20) (by norm_num) (by norm_num)).2.2.2.1).mpr (by norm_num)⟩

/-- C6: `GET /error` always responds 500 with body ok=false,
error="Simulated server error" and final span status ERROR with message
"Forced error"; consequently the middleware increments errorRequests at
route `/error` by exactly one and leaves successRequests unchanged. -/
theorem C6_error_route_behavior (s : SysState) (m p ts : String) (t0 t1 : Nat) :
    responsesOf errorHandler = [(500, { ok := false, error := some "Simulated server error" })]
    ∧ finalSpanStatus errorHandler = some (SpanStatus.error "Forced error")
    ∧ (applyFinish s (errorFinishInput m p ts t0 t1)).errorRequests "/error"
        = s.errorRequests "/error" + 1
    ∧ (applyFinish s (errorFinishInput m p ts t0 t1)).successRequests
        = s.successRequests := by
  refine ⟨rfl, rfl, ?_, ?_⟩ <;>
    simp [errorFinishInput, applyFinish, onFinish, applyEvents, applyEvent, bump,
      show isSuccessStatus 500 = false from rfl,
      show resolveRoute (some "/error") (some p) = "/error" from rfl]

/-- C7: the route label used by metrics and logs is the matched route
pattern when the router exposes one, else the raw request path, else the
literal "unknown"; in particular a request matching no handler (a 404,
where the router exposes no pattern) is still recorded under the raw-path
fallback, and both the metric labels and the log record carry this
resolved route. -/
theorem C7_route_label_fallback (i : FinishInput) :
    (∀ s : String, i.routePath = some s → s ≠ "" → resolveRoute i.routePath i.path = s)
    ∧ (i.routePath = none →
        ∀ t : String, i.path = some t → t ≠ "" → resolveRoute i.routePath i.path = t)
    ∧ (i.routePath = none → i.path = none → resolveRoute i.routePath i.path = "unknown")
    ∧ (finishLabels i).route = resolveRoute i.routePath i.path
    ∧ (finishLogEntry i).route = resolveRoute i.routePath i.path := by
  refine ⟨?_, ?_, ?_, rfl, rfl⟩
  · intro s hs hne
    rw [hs]
    simp [resolveRoute, truthy, hne]
  · intro h t ht hne
    rw [h, ht]
    simp [resolveRoute, truthy, hne]
  · intro h h2
    rw [h, h2]
    simp [resolveRoute, truthy]

/-- C7 witness: a 404-style request (no matched route pattern, raw path
`/missing`) is recorded under the raw path. -/
theorem C7_route_label_fallback_witness :
    resolveRoute none (some "/missing") = "/missing" :=
  (C7_route_label_fallback { method := "GET", routePath := none, path := some "/missing", status := 404, t0 := 0, t1 := 5, ts := "ts" }).2.1 rfl "/missing" rfl (by decide)

/-- C8: the specification requires log-file write failures to be reported
to the process diagnostic stream and otherwise swallowed, never crashing
the process.  The code violates this: the source registers no listener on
`logStream`, so when a write fails the stream's unhandled failure event
becomes an uncaught exception and the process crashes. -/
theorem C8_log_write_failure_crashes_process :
    logStreamHasErrorListener = false
    ∧ writeFailureOutcome logStreamHasErrorListener = FailureOutcome.processCrash := by
  constructor <;> rfl

/-- C9: every log write appends exactly one line consisting of the
ISO-8601 timestamp, a space, the JSON record and a trailing newline to
`<LOGS_DIR>/app.log`, where `LOGS_DIR` defaults to `/app/logs`; the JSON
record is one object with exactly the fields method, route, status,
duration_s in that order, and the log directory exists after the startup
check creates it if absent. -/
theorem C9_log_line_format_and_path (s : SysState) (i : FinishInput) (b : Bool) :
    logFilePath none = "/app/logs/app.log"
    ∧ (∀ d : String, d ≠ "" → logFilePath (some d) = d ++ "/app.log")
    ∧ ensureLogsDir b = true
    ∧ fileLine i.ts (finishLogEntry i) = i.ts ++ " " ++ jsonOfLogEntry (finishLogEntry i) ++ "\n"
    ∧ jsonOfLogEntry (finishLogEntry i) = renderObj (logEntryFields (finishLogEntry i))
    ∧ (logEntryFields (finishLogEntry i)).map Prod.fst = ["method", "route", "status", "duration_s"]
    ∧ (applyFinish s i).logFile = s.logFile ++ [fileLine i.ts (finishLogEntry i)] := by
  refine ⟨rfl, ?_, ?_, rfl, rfl, rfl, ?_⟩
  · intro d hd
    simp [logFilePath, resolveLogsDir, truthy, hd]
  · cases b <;> rfl
  · cases h : isSuccessStatus i.status <;>
      simp [applyFinish, onFinish, applyEvents, applyEvent, h]

/-- C9 witness: with the override directory `/data/logs` the log file is
`/data/logs/app.log`. -/
theorem C9_log_line_format_and_path_witness :
    logFilePath (some "/data/logs") = "/data/logs/app.log" :=
  (C9_log_line_format_and_path initState { method := "GET", routePath := some "/", path := some "/", status := 200, t0 := 0, t1 := 5, ts := "ts" } false).2.1 "/data/logs" (by decide)

/-- C10: the recorded duration is the difference of the two monotonic
nanosecond clock readings divided by 1e9: a non-negative value equal to a
whole number of nanoseconds times 1e-9 s (so the resolution, 1e-9 s, is
finer than a millisecond), and exactly this value is used both for the
histogram observation and for the log record's duration_s field. -/
theorem C10_duration_nonneg_nanosecond_resolution (i : FinishInput) (h : i.t0 ≤ i.t1) :
    0 ≤ deltaSeconds i.t0 i.t1
    ∧ deltaSeconds i.t0 i.t1 = ((i.t1 - i.t0 : ℕ) : ℚ) * (1 / 1000000000)
    ∧ (1 / 1000000000 : ℚ) < 1 / 1000
    ∧ (finishLogEntry i).duration_s = deltaSeconds i.t0 i.t1
    ∧ (onFinish i).filter isHistEv
      = [Event.histObserve (finishLabels i) (deltaSeconds i.t0 i.t1)] := by
  refine ⟨?_, ?_, by norm_num, rfl, ?_⟩
  · apply div_nonneg _ (by norm_num)
    simp only [sub_nonneg]
    exact_mod_cast Int.ofNat_le.mpr h
  · unfold deltaSeconds
    rw [Nat.cast_sub h]
    push_cast
    ring
  · cases hs : isSuccessStatus i.status <;>
      simp [onFinish, hs, isHistEv, finishLabels]

/-- C10 witness: for the concrete clock readings 100 and 2100 ns the
duration is non-negative and equals 2000 nanoseconds times 1e-9. -/
theorem C10_duration_nonneg_nanosecond_resolution_witness :
    0 ≤ deltaSeconds 100 2100
    ∧ deltaSeconds 100 2100 = ((2000 : ℕ) : ℚ) * (1 / 1000000000) :=
  ⟨(C10_duration_nonneg_nanosecond_resolution { method := "GET", routePath := some "/", path := some "/", status := 200, t0 := 100, t1 := 2100, ts := "ts" } (by decide)).1,
   (C10_duration_nonneg_nanosecond_resolution { method := "GET", routePath := some "/", path := some "/", status := 200, t0 := 100, t1 := 2100, ts := "ts" } (by decide)).2.1⟩

end ObsSys
